import Mathlib

/-!
Shallow embedding of `src/librustc_query_system/dep_graph/dep_node.rs`:
the `DepNode` identity type, the `DepNodeParams` trait with its blanket
default implementation and the unit instance, `DepNode::new_no_params`,
`DepNode::construct`, and `WorkProductId`.

External collaborators that are part of the repository but not present
under `src/` (the stable hasher from `rustc_data_structures`, the
`DepKind` and `DepContext` traits, the dep-graph debug registry) are
modelled from the specification, each marked as such in its doc comment.
Rust panics are modelled as `Except.error`; the debug registry is
threaded through `construct` as explicit state.
-/

/-- Modelled from the spec: the external `Fingerprint` collaborator, an
opaque deterministic digest with a zero sentinel, structural equality and
ordering.  (Its real definition lives in `rustc_data_structures`, outside
`src/`; the core treats it as a black-box value type.) -/
structure Fingerprint where
  val : Nat
deriving DecidableEq

/-- `Fingerprint::ZERO`, the canonical sentinel for "no parameters". -/
def Fingerprint.ZERO : Fingerprint := ⟨0⟩

instance : LT Fingerprint := ⟨fun a b => a.val < b.val⟩

instance (a b : Fingerprint) : Decidable (a < b) :=
  inferInstanceAs (Decidable (a.val < b.val))

/-- Modelled from the spec: the external stable-hash accumulator
(`StableHasher` from `rustc_data_structures`, outside `src/`).  The spec
treats it as a deterministic, collision-resistant accumulator; we model
the accumulated stream explicitly and finalization as an injective
encoding of the stream, the idealization of collision resistance. -/
structure StableHasher where
  stream : List Nat
deriving DecidableEq

/-- A fresh accumulator (`StableHasher::new`). -/
def StableHasher.new : StableHasher := ⟨[]⟩

/-- Feed one machine integer (e.g. a `usize` length) into the stream. -/
def StableHasher.write (h : StableHasher) (n : Nat) : StableHasher :=
  ⟨h.stream ++ [n]⟩

/-- Feed the bytes of a string into the stream. -/
def StableHasher.write_bytes (h : StableHasher) (s : String) : StableHasher :=
  ⟨h.stream ++ s.data.map Char.toNat⟩

/-- Injective encoding of an accumulated stream into one natural number,
the ideal-digest model of `StableHasher::finish`. -/
def StableHasher.encode_stream : List Nat → Nat
  | [] => 0
  | a :: rest => Nat.pair a (StableHasher.encode_stream rest) + 1

/-- `StableHasher::finish`: finalize the accumulator to a `Fingerprint`. -/
def StableHasher.finish (h : StableHasher) : Fingerprint :=
  ⟨StableHasher.encode_stream h.stream⟩

/-- `DepNode<K>` from the source: the pair of a kind and a fingerprint. -/
structure DepNode (K : Type) where
  kind : K
  hash : Fingerprint
deriving DecidableEq

/-- Modelled from the spec: the two static facts the external `DepKind`
trait (defined outside `src/`) attaches to each kind tag. -/
structure DepKindOps (K : Type) where
  has_params : K → Bool
  can_reconstruct_query_key : K → Bool

/-- Modelled from the spec: the session/query context capability
(`DepContext`/`QueryContext`, defined outside `src/`): whether node
debugging is enabled, and `create_stable_hashing_context`. -/
structure DepContext (HCtx : Type) where
  debug_dep_node : Bool
  create_stable_hashing_context : HCtx

/-- Modelled from the spec: the process-wide debug registry, keyed by
DepNode identity, mapping to a human-readable label. -/
abbrev DebugRegistry (K : Type) : Type := List (DepNode K × String)

/-- Modelled from the spec: `register_dep_node_debug_str` (defined on the
dep graph, outside `src/`): insert-if-absent, with the debug string
computed lazily, only when the key is not already present. -/
def register_dep_node_debug_str {K : Type} [DecidableEq K]
    (reg : DebugRegistry K) (node : DepNode K) (s : Unit → String) :
    DebugRegistry K :=
  if (List.any reg fun p => p.1 = node) then reg else reg ++ [(node, s ())]

/-- The trait-level default body of `DepNodeParams::to_fingerprint`: a
panic ("Not implemented. Accidentally called on anonymous node?"),
modelled as `Except.error`. -/
def DepNodeParams.to_fingerprint_default {Ctxt Key : Type} :
    Key → Ctxt → Except String Fingerprint :=
  fun _ _ => .error "Not implemented. Accidentally called on anonymous node?"

/-- The `DepNodeParams<Ctxt>` trait from the source, as a record of its
methods for one parameter type `Key`.  `to_fingerprint` defaults to the
trait-level panicking body. -/
structure DepNodeParams (Ctxt K Key : Type) where
  can_reconstruct_query_key : Bool
  to_fingerprint : Key → Ctxt → Except String Fingerprint :=
    DepNodeParams.to_fingerprint_default
  to_debug_str : Key → Ctxt → String
  recover : Ctxt → DepNode K → Option Key

/-- The blanket `impl<Ctxt, T: HashStable + Debug> DepNodeParams<Ctxt> for T`
from the source: `can_reconstruct_query_key` is `false`, `to_fingerprint`
hashes the value into a fresh accumulator under a fresh stable-hashing
context and finishes, `to_debug_str` is the value's debug rendering, and
`recover` returns `None`.  The type's `HashStable` and `Debug` impls are
the parameters `hash_stable` and `debug_fmt`. -/
def blanket_impl {K HCtx Key : Type}
    (hash_stable : Key → HCtx → StableHasher → StableHasher)
    (debug_fmt : Key → String) :
    DepNodeParams (DepContext HCtx) K Key where
  can_reconstruct_query_key := false
  to_fingerprint := fun v tcx =>
    let hcx := tcx.create_stable_hashing_context
    let hasher := StableHasher.new
    .ok (StableHasher.finish (hash_stable v hcx hasher))
  to_debug_str := fun v _ => debug_fmt v
  recover := fun _ _ => none

/-- The `impl<Ctxt> DepNodeParams<Ctxt> for ()` from the source: by
specialization it overrides only `to_fingerprint` (returning
`Fingerprint::ZERO`) and inherits every other item from the blanket
default implementation.  `()`'s `HashStable` impl is a no-op and its
debug rendering is `"()"`. -/
def unit_impl {K HCtx : Type} : DepNodeParams (DepContext HCtx) K Unit :=
  { @blanket_impl K HCtx Unit (fun _ _ h => h) (fun _ => "()") with
    to_fingerprint := fun _ _ => .ok Fingerprint.ZERO }

/-- `DepNode::new_no_params` in a debug build: `debug_assert!` that the
kind has no parameters (modelled as `none` on violation), then return
`DepNode { kind, hash: Fingerprint::ZERO }`. -/
def new_no_params {K : Type} (ops : DepKindOps K) (kind : K) :
    Option (DepNode K) :=
  if ops.has_params kind then none
  else some { kind := kind, hash := Fingerprint.ZERO }

/-- `DepNode::construct` in a debug build (so the `cfg(debug_assertions)`
block is present): compute the fingerprint of `arg`, build the node, and
if the kind cannot reconstruct its query key and the context has node
debugging enabled, register the node with a lazily computed debug string
in the debug registry.  The registry is threaded as explicit state; a
panic in `to_fingerprint` propagates as `Except.error`. -/
def construct {K HCtx Key : Type} [DecidableEq K]
    (ops : DepKindOps K) (ps : DepNodeParams (DepContext HCtx) K Key)
    (tcx : DepContext HCtx) (kind : K) (arg : Key)
    (reg : DebugRegistry K) :
    Except String (DepNode K × DebugRegistry K) :=
  match ps.to_fingerprint arg tcx with
  | .error e => .error e
  | .ok hash =>
    let dep_node : DepNode K := { kind := kind, hash := hash }
    let reg' :=
      if !ops.can_reconstruct_query_key kind && tcx.debug_dep_node then
        register_dep_node_debug_str reg dep_node
          (fun _ => ps.to_debug_str arg tcx)
      else reg
    .ok (dep_node, reg')

/-- `WorkProductId` from the source: a fingerprint wrapped in its own
type. -/
structure WorkProductId where
  hash : Fingerprint
deriving DecidableEq

/-- `WorkProductId::from_cgu_name`: feed the name's length and then the
name itself into a fresh stable hasher and finish. -/
def from_cgu_name (cgu_name : String) : WorkProductId :=
  let hasher := StableHasher.new
  let hasher := hasher.write cgu_name.length
  let hasher := hasher.write_bytes cgu_name
  { hash := hasher.finish }

/-- `WorkProductId::from_fingerprint`: direct wrap, no hashing. -/
def from_fingerprint (fingerprint : Fingerprint) : WorkProductId :=
  { hash := fingerprint }

/-- Hashing a list of strings as consecutive length-prefixed segments in
one fresh accumulator, the decomposition the spec's length-prefix
property speaks about. -/
def hash_segments (segs : List String) : Fingerprint :=
  StableHasher.finish
    (segs.foldl (fun h s => (h.write s.length).write_bytes s) StableHasher.new)

/-- The `#[derive(PartialOrd, Ord)]` comparison on `DepNode`: compare the
`kind` fields first and break ties with the `hash` fields, exactly as the
derived `Ord::cmp` does field by field. -/
def DepNode.cmp {K : Type} [LinearOrder K] (a b : DepNode K) : Ordering :=
  (compare a.kind b.kind).then (compare a.hash.val b.hash.val)

/-! Concrete fixtures used by witnesses and the counterexample. -/

/-- A concrete session context with node debugging enabled and a trivial
hashing context. -/
def testCtx : DepContext Unit := { debug_dep_node := true, create_stable_hashing_context := () }

/-- A concrete `HashStable` impl for `Nat` keys: feed the value. -/
def natHashStable : Nat → Unit → StableHasher → StableHasher :=
  fun v _ h => h.write v

/-- The blanket `DepNodeParams` instance at the concrete `Nat` key type. -/
def natImpl : DepNodeParams (DepContext Unit) Nat Nat :=
  blanket_impl natHashStable toString

/-- Concrete kind facts over `Nat` kinds: kind `0` has no parameters and
can reconstruct its key; every other kind has parameters and cannot. -/
def testOps : DepKindOps Nat :=
  { has_params := fun k => decide (k ≠ 0),
    can_reconstruct_query_key := fun k => decide (k = 0) }

/-! Helper lemmas shared across claim proofs. -/

/-- The order on fingerprints compares the underlying values. -/
theorem Fingerprint.lt_def (a b : Fingerprint) : a < b ↔ a.val < b.val :=
  Iff.rfl

/-! Claim theorems. -/

/-- Claim C1, counterexample: at the concrete kind type `Nat`, session
context `testCtx` and node `(0, ZERO)`, the unit instance does not have
`can_reconstruct_query_key = true` together with a succeeding `recover`:
the claimed conjunction is false, because the unit impl overrides only
`to_fingerprint` and inherits `false`/`None` from the blanket defaults. -/
theorem unit_impl_claim_counterexample :
    ¬ ((@unit_impl Nat Unit).can_reconstruct_query_key = true ∧
       ((@unit_impl Nat Unit).recover testCtx
          { kind := 0, hash := Fingerprint.ZERO }).isSome = true) := by
  decide

/-- Claim C1 (amended): the unit parameter type's `DepNodeParams` instance
has `to_fingerprint` returning `Fingerprint::ZERO` for every context, but
`can_reconstruct_query_key()` returns `false` and `recover` returns `None`
for every context and node, both inherited from the blanket defaults. -/
theorem unit_impl_instance {K HCtx : Type} :
    (∀ tcx : DepContext HCtx,
        (@unit_impl K HCtx).to_fingerprint () tcx = .ok Fingerprint.ZERO) ∧
    (@unit_impl K HCtx).can_reconstruct_query_key = false ∧
    (∀ (tcx : DepContext HCtx) (node : DepNode K),
        (@unit_impl K HCtx).recover tcx node = none) :=
  ⟨fun _ => rfl, rfl, fun _ _ => rfl⟩

/-- Claim C2: both parameter-type instances defined in the source (the
blanket instance for any hash-stable, debug-formattable type, and the
unit instance) have `can_reconstruct_query_key() = false`, and their
`recover` returns `None` for every session context and every node. -/
theorem recover_none_for_non_reconstructable {K HCtx Key : Type}
    (hash_stable : Key → HCtx → StableHasher → StableHasher)
    (debug_fmt : Key → String)
    (tcx : DepContext HCtx) (node : DepNode K) :
    ((@blanket_impl K HCtx Key hash_stable debug_fmt).can_reconstruct_query_key
        = false ∧
      (@blanket_impl K HCtx Key hash_stable debug_fmt).recover tcx node = none) ∧
    ((@unit_impl K HCtx).can_reconstruct_query_key = false ∧
      (@unit_impl K HCtx).recover tcx node = none) :=
  ⟨⟨rfl, rfl⟩, ⟨rfl, rfl⟩⟩

/-- Claim C3: for every kind with `has_params() = false`, `new_no_params`
succeeds and returns the node with that kind and hash `Fingerprint::ZERO`. -/
theorem new_no_params_zero {K : Type} (ops : DepKindOps K) (kind : K)
    (h : ops.has_params kind = false) :
    new_no_params ops kind = some { kind := kind, hash := Fingerprint.ZERO } := by
  simp [new_no_params, h]

/-- Witness for C3 at kind `0` of the concrete kind table. -/
theorem new_no_params_zero_witness :
    testOps.has_params 0 = false ∧
    new_no_params testOps 0 = some { kind := 0, hash := Fingerprint.ZERO } :=
  ⟨by decide, new_no_params_zero testOps 0 (by decide)⟩

/-- Claim C4: whenever `to_fingerprint` succeeds with hash `h`,
`construct` succeeds and the returned node has exactly the requested kind
and hash `h`. -/
theorem construct_ok_kind_hash {K HCtx Key : Type} [DecidableEq K]
    (ops : DepKindOps K) (ps : DepNodeParams (DepContext HCtx) K Key)
    (tcx : DepContext HCtx) (kind : K) (arg : Key) (reg : DebugRegistry K)
    (h : Fingerprint) (hok : ps.to_fingerprint arg tcx = .ok h) :
    Except.map Prod.fst (construct ops ps tcx kind arg reg) =
      .ok { kind := kind, hash := h } := by
  unfold construct
  rw [hok]
  by_cases hc :
      (!ops.can_reconstruct_query_key kind && tcx.debug_dep_node) = true <;>
    simp [hc, Except.map]

/-- Witness for C4 at the concrete `Nat`-keyed blanket instance. -/
theorem construct_ok_kind_hash_witness :
    natImpl.to_fingerprint 5 testCtx = .ok ⟨31⟩ ∧
    Except.map Prod.fst (construct testOps natImpl testCtx 1 5 []) =
      .ok { kind := 1, hash := ⟨31⟩ } :=
  ⟨rfl, construct_ok_kind_hash testOps natImpl testCtx 1 5 [] ⟨31⟩ rfl⟩

/-- Claim C5: the blanket default `to_fingerprint` equals creating a fresh
stable-hashing context from the session context, feeding the stable hash
of the value into a fresh accumulator, and finalizing it. -/
theorem blanket_to_fingerprint_spec {K HCtx Key : Type}
    (hash_stable : Key → HCtx → StableHasher → StableHasher)
    (debug_fmt : Key → String) (v : Key) (tcx : DepContext HCtx) :
    (@blanket_impl K HCtx Key hash_stable debug_fmt).to_fingerprint v tcx =
      .ok (StableHasher.finish
        (hash_stable v tcx.create_stable_hashing_context
          (StableHasher.mk []))) :=
  rfl

/-- Claim C6: the trait-level default body of `to_fingerprint` (used by
anonymous marker types that do not override it) fails with the panic
message and never returns a fingerprint. -/
theorem to_fingerprint_default_panics {Ctxt Key : Type} (v : Key) (tcx : Ctxt) :
    DepNodeParams.to_fingerprint_default v tcx =
      .error "Not implemented. Accidentally called on anonymous node?" ∧
    ∀ f : Fingerprint,
      DepNodeParams.to_fingerprint_default v tcx ≠ Except.ok f := by
  refine ⟨rfl, fun f h => ?_⟩
  exact Except.noConfusion h

/-- Claim C7: `from_cgu_name` hashes the name as one length-prefixed
segment in a fresh accumulator; hashing the two length-prefixed segments
"ab", "c" yields a different fingerprint than the single segment "abc";
and the result is deterministic for the same name. -/
theorem from_cgu_name_length_prefixed :
    (∀ name : String, from_cgu_name name = { hash := hash_segments [name] }) ∧
    hash_segments ["ab", "c"] ≠ hash_segments ["abc"] ∧
    (∀ name : String, from_cgu_name name = from_cgu_name name) := by
  refine ⟨fun name => rfl, by decide, fun name => rfl⟩

/-- Claim C8: the derived comparison on `DepNode` is the lexicographic
order on the pair (kind, hash): it returns `lt` exactly when the kind is
smaller or the kinds are equal and the hash is smaller, it returns `eq`
exactly when both fields are equal (no ties other than true duplicates),
and it is antisymmetric (`gt` one way is `lt` the other), so it is a
total order. -/
theorem depnode_ord_lexicographic {K : Type} [LinearOrder K]
    (a b : DepNode K) :
    (DepNode.cmp a b = .lt ↔
      (a.kind < b.kind ∨ (a.kind = b.kind ∧ a.hash < b.hash))) ∧
    (DepNode.cmp a b = .eq ↔ a = b) ∧
    (DepNode.cmp a b = .gt ↔ DepNode.cmp b a = .lt) := by
  obtain ⟨ak, ⟨an⟩⟩ := a
  obtain ⟨bk, ⟨bn⟩⟩ := b
  rcases lt_trichotomy ak bk with h | h | h
  · have c1 : compare ak bk = .lt := compare_lt_iff_lt.mpr h
    have c2 : compare bk ak = .gt := compare_gt_iff_gt.mpr h
    refine ⟨?_, ?_, ?_⟩ <;>
      simp [DepNode.cmp, c1, c2, Ordering.then, h, ne_of_lt h]
  · subst h
    have c1 : compare ak ak = .eq := compare_eq_iff_eq.mpr rfl
    rcases Nat.lt_trichotomy an bn with hh | hh | hh
    · have d1 : compare an bn = .lt := Nat.compare_eq_lt.mpr hh
      have d2 : compare bn an = .gt := Nat.compare_eq_gt.mpr hh
      refine ⟨?_, ?_, ?_⟩ <;>
        simp [DepNode.cmp, c1, d1, d2, Ordering.then, Fingerprint.lt_def,
          hh, Nat.ne_of_lt hh]
    · subst hh
      have d1 : compare an an = .eq := Nat.compare_eq_eq.mpr rfl
      refine ⟨?_, ?_, ?_⟩ <;>
        simp [DepNode.cmp, c1, d1, Ordering.then, Fingerprint.lt_def]
    · have d1 : compare an bn = .gt := Nat.compare_eq_gt.mpr hh
      have d2 : compare bn an = .lt := Nat.compare_eq_lt.mpr hh
      refine ⟨?_, ?_, ?_⟩ <;>
        simp [DepNode.cmp, c1, d1, d2, Ordering.then, Fingerprint.lt_def,
          Nat.lt_asymm hh, ne_of_gt hh]
  · have c1 : compare ak bk = .gt := compare_gt_iff_gt.mpr h
    have c2 : compare bk ak = .lt := compare_lt_iff_lt.mpr h
    refine ⟨?_, ?_, ?_⟩ <;>
      simp [DepNode.cmp, c1, c2, Ordering.then, lt_asymm h, ne_of_gt h]

/-- Claim C9: when `to_fingerprint` succeeds with hash `h`, `construct`
returns the node `(kind, h)` unconditionally, and the registry after the
call equals `register_dep_node_debug_str` applied to the node exactly
when the kind cannot reconstruct its query key and the context has node
debugging enabled, and is left untouched under every other combination. -/
theorem construct_debug_registration {K HCtx Key : Type} [DecidableEq K]
    (ops : DepKindOps K) (ps : DepNodeParams (DepContext HCtx) K Key)
    (tcx : DepContext HCtx) (kind : K) (arg : Key) (reg : DebugRegistry K)
    (h : Fingerprint) (hok : ps.to_fingerprint arg tcx = .ok h) :
    construct ops ps tcx kind arg reg =
      .ok ({ kind := kind, hash := h },
        if !ops.can_reconstruct_query_key kind && tcx.debug_dep_node then
          register_dep_node_debug_str reg { kind := kind, hash := h }
            (fun _ => ps.to_debug_str arg tcx)
        else reg) := by
  unfold construct
  rw [hok]

/-- Witness for C9 at a kind that cannot reconstruct its key and a
context with node debugging enabled. -/
theorem construct_debug_registration_witness :
    natImpl.to_fingerprint 5 testCtx = .ok ⟨31⟩ ∧
    construct testOps natImpl testCtx 1 5 [] =
      .ok ({ kind := 1, hash := ⟨31⟩ },
        if !testOps.can_reconstruct_query_key 1 && testCtx.debug_dep_node then
          register_dep_node_debug_str [] { kind := 1, hash := ⟨31⟩ }
            (fun _ => natImpl.to_debug_str 5 testCtx)
        else []) :=
  ⟨rfl, construct_debug_registration testOps natImpl testCtx 1 5 [] ⟨31⟩ rfl⟩

/-- Claim C10: the fingerprint of a constructed node does not depend on
the kind: constructing with the same context, argument and registry but
any two kinds yields the same hash (and the same failure when
`to_fingerprint` fails). -/
theorem construct_hash_kind_independent {K HCtx Key : Type} [DecidableEq K]
    (ops : DepKindOps K) (ps : DepNodeParams (DepContext HCtx) K Key)
    (tcx : DepContext HCtx) (k1 k2 : K) (arg : Key) (reg : DebugRegistry K) :
    Except.map (fun p => p.1.hash) (construct ops ps tcx k1 arg reg) =
      Except.map (fun p => p.1.hash) (construct ops ps tcx k2 arg reg) := by
  unfold construct
  cases ps.to_fingerprint arg tcx <;> simp [Except.map]
